import Mathlib

/-!
Shallow embedding of `src/app.py` (a Flask release-notes generator backed by
MongoDB).  Pure string-processing helpers are translated directly; the HTTP
handlers become functions from an explicit store state (plus oracles for the
three outbound network dependencies: the JIRA REST API, the upstream
bug-tracker pages, and the Gemini generative-language API) to a response and
a new store state.  Mongo documents are modelled as association lists from
field names to string values; `datetime.now()` is passed in as an explicit
parameter.
-/

/-! ## Python string primitives -/

/-- Python `\s` character class (ASCII range): space, tab, newline, carriage
return, vertical tab, form feed. -/
def pyIsSpace (c : Char) : Bool :=
  c.isWhitespace || c = '\x0b' || c = '\x0c'

/-- One character of the delimiter class in `re.split(r'[,\s\n]+', ...)`
(`\n` is already inside `\s`). -/
def isDelimChar (c : Char) : Bool :=
  c = ',' || pyIsSpace c

mutual

/-- State of `re.split(r'[,\s\n]+', s)` while reading a token whose reversed
characters so far are `acc`. -/
def splitTok : List Char → List Char → List String
  | [], acc => [String.mk acc.reverse]
  | c :: cs, acc =>
      if isDelimChar c then String.mk acc.reverse :: splitDelim cs
      else splitTok cs (c :: acc)

/-- State of `re.split(r'[,\s\n]+', s)` while consuming a (non-initial) run
of delimiter characters. -/
def splitDelim : List Char → List String
  | [] => [""]
  | c :: cs => if isDelimChar c then splitDelim cs else splitTok cs [c]

end

/-- `re.split(r'[,\s\n]+', s)`: fields between maximal delimiter runs, with an
empty field at either end when the string starts or ends with a delimiter. -/
def pySplitDelims (s : String) : List String :=
  splitTok s.data []

/-- Python `str.upper()` (ASCII case mapping; the application's ticket keys
are ASCII). -/
def pyUpper (s : String) : String :=
  String.mk (s.data.map Char.toUpper)

/-- Python `str.strip()` (whitespace from both ends). -/
def pyStrip (s : String) : String :=
  String.mk (((s.data.dropWhile pyIsSpace).reverse.dropWhile pyIsSpace).reverse)

/-- Python string comparison: lexicographic on code points. -/
def lexLe : List Char → List Char → Bool
  | [], _ => true
  | _ :: _, [] => false
  | a :: as, b :: bs =>
      if a.val < b.val then true
      else if b.val < a.val then false
      else lexLe as bs

/-- Insert into a lexicographically sorted list of strings. -/
def insertStr (x : String) : List String → List String
  | [] => [x]
  | y :: ys => if lexLe x.data y.data then x :: y :: ys else y :: insertStr x ys

/-- Python `sorted(...)` on a list of strings (code-point lexicographic). -/
def sortStrs (l : List String) : List String :=
  l.foldr insertStr []

/-- Python `list(set(...))`: duplicate removal.  The iteration order of a
Python `set` is unspecified; everywhere the source uses it the result is
either sorted afterwards or its order is not observable in any claim, so the
particular representative order chosen by `List.dedup` is immaterial. -/
def pySetList (l : List String) : List String :=
  l.dedup

/-- `sorted(list(set(filter(None, re.split(r'[,\s\n]+', raw)))))` from
`generate_release_notes` (src/app.py line 112). -/
def ticketKeysOf (raw : String) : List String :=
  sortStrs (pySetList ((pySplitDelims raw).filter (fun t => !(t == ""))))

/-- `list(set(filter(None, re.split(r'[,\s\n]+', raw))))` as used for URL
lists in `generate_mongo_intro` and `process_upstream_bugs`. -/
def urlListOf (raw : String) : List String :=
  pySetList ((pySplitDelims raw).filter (fun t => !(t == "")))

/-- The upper-cased fetch sequence: `generate_release_notes` iterates over
`ticketKeysOf` and calls `fetch_jira_ticket(domain, email, token, key.upper())`
for each key in order (src/app.py lines 115-116), so these are exactly the
keys handed to the JIRA fetcher, in order. -/
def fetchedKeySeq (raw : String) : List String :=
  (ticketKeysOf raw).map pyUpper

/-! ## Mongo documents and `$set` -/

/-- A Mongo document, restricted to the string-valued fields this application
reads and writes: an association list from field name to value. -/
abbrev Doc : Type := List (String × String)

/-- `update_one(filter, {'$set': data})` on a single document: every field of
`data` is written (overwriting an existing value), all other fields of `doc`
are kept.  Mongo preserves the document's field order; this model instead
puts the `data` fields first, which leaves the key/value mapping — the only
thing the handlers observe — unchanged. -/
def setMerge (doc data : Doc) : Doc :=
  data ++ doc.filter (fun p => (data.lookup p.1).isNone)

/-- POST `/api/settings`: `db.settings.update_one({'_id': 'global_settings'},
{'$set': data}, upsert=True)` (src/app.py line 49).  With no stored document
the upsert creates one from the filter (the `_id` field) and then applies
`$set`. -/
def settingsPost (st : Option Doc) (data : Doc) : Option Doc :=
  some (setMerge (st.getD [("_id", "global_settings")]) data)

/-- GET `/api/settings`: `db.settings.find_one(...)` then
`jsonify(settings_data or {})` (src/app.py lines 52-54). -/
def settingsGet (st : Option Doc) : Doc :=
  st.getD []

/-! ## JIRA rich-text (ADF) description trees — `parse_jira_description` -/

/-- One node of an Atlassian Document Format tree as the code inspects it:
an optional `type` tag, an optional `text` payload, and an optional child
list (`"content" in node and isinstance(node["content"], list)`). -/
inductive JNode where
  | mk (ty : Option String) (tx : Option String) (content : Option (List JNode))

mutual

/-- Decidable equality on `JNode` (the nested inductive defeats `deriving`). -/
def decEqJNode : (a b : JNode) → Decidable (a = b)
  | .mk t1 x1 c1, .mk t2 x2 c2 =>
      if ht : t1 = t2 then
        if hx : x1 = x2 then
          match decEqJNodeChildren c1 c2 with
          | isTrue hc => isTrue (by rw [ht, hx, hc])
          | isFalse hc => isFalse (by intro h; injection h; contradiction)
        else isFalse (by intro h; injection h; contradiction)
      else isFalse (by intro h; injection h; contradiction)

/-- Decidable equality on optional `JNode` child lists. -/
def decEqJNodeChildren : (a b : Option (List JNode)) → Decidable (a = b)
  | none, none => isTrue rfl
  | none, some _ => isFalse (fun h => Option.noConfusion h)
  | some _, none => isFalse (fun h => Option.noConfusion h)
  | some l1, some l2 =>
      match decEqJNodeList l1 l2 with
      | isTrue h => isTrue (by rw [h])
      | isFalse h => isFalse (by intro hh; injection hh; contradiction)

/-- Decidable equality on `JNode` lists. -/
def decEqJNodeList : (a b : List JNode) → Decidable (a = b)
  | [], [] => isTrue rfl
  | [], _ :: _ => isFalse (fun h => List.noConfusion h)
  | _ :: _, [] => isFalse (fun h => List.noConfusion h)
  | a :: as, b :: bs =>
      match decEqJNode a b, decEqJNodeList as bs with
      | isTrue h1, isTrue h2 => isTrue (by rw [h1, h2])
      | isFalse h1, _ => isFalse (by intro h; injection h; contradiction)
      | _, isFalse h2 => isFalse (by intro h; injection h; contradiction)

end

instance : DecidableEq JNode := decEqJNode

/-- The `type` field of a node. -/
def JNode.ty : JNode → Option String
  | .mk t _ _ => t

/-- The `text` field of a node. -/
def JNode.tx : JNode → Option String
  | .mk _ t _ => t

/-- The child list of a node, when the `content` key is present and a list. -/
def JNode.content : JNode → Option (List JNode)
  | .mk _ _ c => c

/-- The top-level `description` field value: a dict whose `content` key (when
present) holds the node list.  (A `description` that is not a dict at all is
the `none` case of the `Option ADFDoc` arguments below.) -/
structure ADFDoc where
  content : Option (List JNode)
deriving DecidableEq

mutual

/-- The body of `recurse` in `parse_jira_description` (src/app.py lines
33-38) for a single node: append the node's own text when it is tagged
`"text"` and carries a `text` key, then descend into its child list. -/
def nodeTexts : JNode → List String
  | .mk ty tx co =>
      (if ty = some "text" ∧ tx ≠ none then [tx.getD ""] else []) ++
      (match co with
       | some l => listTexts l
       | none => [])

/-- `recurse(nodes)` from `parse_jira_description`: collected text payloads
of a node list, in order. -/
def listTexts : List JNode → List String
  | [] => []
  | n :: rest => nodeTexts n ++ listTexts rest

end

/-- `parse_jira_description` (src/app.py lines 29-40): `""` unless the input
is a dict with a `content` key; otherwise the space-join of the collected
text payloads. -/
def parse_jira_description : Option ADFDoc → String
  | none => ""
  | some d =>
      match d.content with
      | none => ""
      | some nodes => String.intercalate " " (listTexts nodes)

mutual

/-- Depth-first pre-order listing of a single node and its descendants
(specification-side definition used to state claim C6). -/
def nodePre : JNode → List JNode
  | .mk ty tx co =>
      .mk ty tx co ::
      (match co with
       | some l => listPre l
       | none => [])

/-- Depth-first pre-order listing of a node list and all descendants
(specification-side definition used to state claim C6). -/
def listPre : List JNode → List JNode
  | [] => []
  | n :: rest => nodePre n ++ listPre rest

end

/-- The string carried by a node tagged `"text"` (specification-side
definition used to state claim C6). -/
def textLeafVal (n : JNode) : Option String :=
  if n.ty = some "text" then n.tx else none

/-- The node list of an optional description document (empty when the
document or its `content` key is absent). -/
def docNodes : Option ADFDoc → List JNode
  | none => []
  | some d => d.content.getD []

/-! ## Gemini summarizer — `get_summary_from_ai` -/

/-- One element of the `parts` array of a Gemini response candidate. -/
structure GeminiPart where
  text : Option String
deriving DecidableEq

/-- The `content` object of a Gemini response candidate. -/
structure GeminiContent where
  parts : Option (List GeminiPart)
deriving DecidableEq

/-- One element of the `candidates` array of a Gemini response. -/
structure GeminiCandidate where
  content : Option GeminiContent
deriving DecidableEq

/-- The JSON body of a (2xx) Gemini response, to the depth the code reads. -/
structure GeminiResponse where
  candidates : Option (List GeminiCandidate)
deriving DecidableEq

/-- `result.get("candidates", [{}])[0].get("content", {}).get("parts",
[{}])[0].get("text", "")` (src/app.py line 184).  Each `.get` with a default
covers an *absent* key, but a key that is present with an *empty* list makes
`[0]` raise an uncaught `IndexError` — the `none` result. -/
def extractGeminiText (r : GeminiResponse) : Option String :=
  match r.candidates with
  | none => some ""
  | some [] => none
  | some (c :: _) =>
      match c.content with
      | none => some ""
      | some ct =>
          match ct.parts with
          | none => some ""
          | some [] => none
          | some (p :: _) => some (p.text.getD "")

/-- The prompt text built in `get_summary_from_ai` (src/app.py lines
173-178). -/
def buildPrompt (title description : String) ( is_upstream : Bool) : String :=
  (if is_upstream then
    "Generate a concise, user-friendly summary for an upstream bug fix. The summary should be a single, clear sentence explaining the fix from an end-user\x27s perspective."
   else
    "Generate a concise, user-friendly summary for a software release note based on the following JIRA ticket details. The summary should be a single, clear sentence explaining the change from an end-user\x27s perspective.")
  ++ " Do not start with phrases like \"This ticket\" or \"The user can now\". Just state the change directly.\n"
  ++ "Original JIRA Title: \"" ++ title ++ "\"\n"
  ++ "JIRA Description: \"" ++ description ++ "\"\n"
  ++ "Release Note Summary:"

/-- `get_summary_from_ai` (src/app.py lines 171-189).  The network is the
oracle `api`, mapping the prompt to `none` on a `RequestException` (network
failure or non-2xx status, which the code catches) and to the response JSON
otherwise.  Result: the returned summary (or `none` when the uncaught
`IndexError` of `extractGeminiText` escapes), paired with whether an API
call was made at all. -/
def get_summary_from_ai (title description : String)
    (api : String → Option GeminiResponse) ( is_upstream : Bool) :
    Option String × Bool :=
  if pyStrip description = "" then (some title, false)
  else
    match api (buildPrompt title description is_upstream) with
    | none => (some title, true)
    | some r =>
        match extractGeminiText r with
        | none => (none, true)
        | some s => (some (if s = "" then title else pyStrip s), true)

/-! ## Version extraction — `re.search(r'(\d+\.\d+\.\d+)', url)` -/

/-- Attempt of the pattern `\d+\.\d+\.\d+` anchored at the head of `cs`.
For this pattern the greedy, backtracking-free reading agrees with Python's
regex engine: each `\d+` must consume a maximal digit run, since shortening
it leaves a digit (never `.`) as the next character. -/
def matchTripleAt (cs : List Char) : Option String :=
  let r1 := cs.takeWhile Char.isDigit
  if r1 = [] then none
  else
    match cs.dropWhile Char.isDigit with
    | [] => none
    | c :: cs2 =>
        if c = '.' then
          let r2 := cs2.takeWhile Char.isDigit
          if r2 = [] then none
          else
            match cs2.dropWhile Char.isDigit with
            | [] => none
            | c2 :: cs3 =>
                if c2 = '.' then
                  let r3 := cs3.takeWhile Char.isDigit
                  if r3 = [] then none
                  else some (String.mk (r1 ++ '.' :: r2 ++ '.' :: r3))
                else none
        else none

/-- Leftmost match: `re.search` tries start positions left to right. -/
def searchTriple : List Char → Option String
  | [] => none
  | c :: cs =>
      match matchTripleAt (c :: cs) with
      | some v => some v
      | none => searchTriple cs

/-- `re.search(r'(\d+\.\d+\.\d+)', s)` with the captured group, as used in
`generate_mongo_intro` (src/app.py line 141) and `process_upstream_bugs`
(src/app.py line 228). -/
def extractVersion (s : String) : Option String :=
  searchTriple s.data

/-- Specification-side predicate for claim C4: the string contains a dotted
triplet of digit runs somewhere. -/
def containsTriplet (s : String) : Prop :=
  ∃ pre d1 d2 d3 post : List Char,
    s.data = pre ++ (d1 ++ '.' :: d2 ++ '.' :: d3 ++ post) ∧
    d1 ≠ [] ∧ d2 ≠ [] ∧ d3 ≠ [] ∧
    d1.all Char.isDigit ∧ d2.all Char.isDigit ∧ d3.all Char.isDigit

/-! ## `generate_mongo_intro` -/

/-- The loop body of `generate_mongo_intro` (src/app.py lines 140-145): a URL
with a version triplet yields that version paired with its markdown link;
one without is skipped.  `versions` and `mongo_links` are both sorted before
use, so the unspecified Python set iteration order is immaterial. -/
def introPair (url : String) : Option (String × String) :=
  match extractVersion url with
  | some v => some (v, "[MongoDB " ++ v ++ " Community Edition](" ++ url ++ ")")
  | none => none

/-- `generate_mongo_intro` (src/app.py lines 135-157).  `current_date` is
`datetime.now().strftime("%b %d, %Y")` passed in explicitly. -/
def generate_mongo_intro (urls_raw version current_date : String) : String :=
  if pyStrip urls_raw = "" then ""
  else
    let urls := urlListOf urls_raw
    if urls = [] then ""
    else
      let pairs := urls.filterMap introPair
      let versions := pairs.map Prod.fst
      let mongo_links := pairs.map Prod.snd
      if mongo_links = [] then ""
      else
        let links := sortStrs mongo_links
        let display_version :=
          if version = "" then "X.Y.Z"
          else String.mk (version.data.dropWhile (fun c => c = 'v'))
        "Percona Server for MongoDB " ++ display_version ++ " (" ++ current_date ++ ")\n" ++
        "[Install](../install/index.md)\x7b.md-button\x7d\n" ++
        "[Upgrade from MongoDB Community](../install/upgrade-from-mongodb.md)\x7b.md-button\x7d\n" ++
        "Percona Server for MongoDB " ++ display_version ++
        " is an enhanced, source-available, and highly-scalable database that is a\n" ++
        "fully-compatible, drop-in replacement for MongoDB Community Edition.\n" ++
        "Percona Server for MongoDB " ++ display_version ++
        " includes the improvements and bug fixes of " ++
        String.intercalate ", " links ++ ".\n" ++
        "It supports protocols and drivers of MongoDB Community " ++
        String.intercalate " through " (sortStrs versions) ++ ".\n"

/-! ## `process_upstream_bugs` -/

/-- Python `url.split('/')[-1]` (src/app.py line 212). -/
def lastPathSeg (url : String) : String :=
  (url.splitOn "/").getLastD ""

/-- The release-note link of `process_upstream_bugs` (src/app.py lines
227-230): the extracted version triplet, or the placeholder word
`"version"` when the pattern does not match. -/
def releaseLinkLine (r_url : String) : String :=
  match extractVersion r_url with
  | some v => "* [MongoDB " ++ v ++ " Community Edition](" ++ r_url ++ ")"
  | none => "* [MongoDB version Community Edition](" ++ r_url ++ ")"

/-- The scrape-and-summarize loop of `process_upstream_bugs` (src/app.py
lines 200-217).  The `scrape` oracle maps a URL to `none` when the GET
raises a `RequestException` or either of the `summary-val` /
`descriptionmodule` elements is missing (both cases `continue`), and to the
extracted (title, description) texts otherwise.  An uncaught error escaping
`get_summary_from_ai` aborts the whole request (`none`). -/
def processBugUrls : List String → (String → Option (String × String)) →
    (String → Option GeminiResponse) → Option (List String)
  | [], _, _ => some []
  | u :: us, scrape, api =>
      match scrape u with
      | none => processBugUrls us scrape api
      | some (title, description) =>
          match get_summary_from_ai title description api true with
          | (none, _) => none
          | (some s, _) =>
              (processBugUrls us scrape api).map
                (fun rest => ("* [" ++ lastPathSeg u ++ "](" ++ u ++ ") - " ++ s) :: rest)

/-- `process_upstream_bugs` (src/app.py lines 191-232). -/
def process_upstream_bugs (bug_urls_raw release_urls_raw : String)
    (scrape : String → Option (String × String))
    (api : String → Option GeminiResponse) : Option String :=
  if pyStrip bug_urls_raw = "" then some ""
  else
    let bug_urls := urlListOf bug_urls_raw
    if bug_urls = [] then some ""
    else
      match processBugUrls bug_urls scrape api with
      | none => none
      | some summarized_bugs =>
          if summarized_bugs = [] then some ""
          else
            let md1 := ["### Upstream Improvements",
              "The bug fixes, provided by MongoDB Community Edition and included in Percona Server for MongoDB, are the following:"]
              ++ summarized_bugs
            let release_urls := urlListOf release_urls_raw
            let md2 :=
              if release_urls = [] then md1
              else md1 ++
                ["\nFind the full list of changes in the following MongoDB Community Edition release notes:"]
                ++ (sortStrs release_urls).map releaseLinkLine
            some (String.intercalate "\n" md2)

/-! ## Tickets, classification and `generate_final_markdown` -/

/-- The `issuetype` object of a fetched JIRA issue. -/
structure IssueType where
  name : Option String
deriving DecidableEq

/-- The `fields` object of a fetched JIRA issue, to the depth the code
reads. -/
structure TicketFields where
  summary : Option String
  issuetype : Option IssueType
  description : Option ADFDoc
deriving DecidableEq

/-- A fetched JIRA issue.  The code indexes `ticket['key']` unconditionally
(src/app.py line 259), so `key` is modelled as a mandatory field of the
JIRA response; everything reached via `.get` is optional. -/
structure JiraTicket where
  key : String
  fields : Option TicketFields
deriving DecidableEq

/-- `ticket.get("fields", {}).get("issuetype", {}).get("name", "Task")`
(src/app.py line 252). -/
def ticketIssueName (t : JiraTicket) : String :=
  match t.fields with
  | none => "Task"
  | some f =>
      match f.issuetype with
      | none => "Task"
      | some it => it.name.getD "Task"

/-- `ticket_info.get("fields", {}).get("summary", "No title")` (src/app.py
line 118). -/
def ticketTitle (t : JiraTicket) : String :=
  match t.fields with
  | none => "No title"
  | some f => f.summary.getD "No title"

/-- `ticket_info.get("fields", {}).get("description")` (src/app.py line
119). -/
def ticketDescription (t : JiraTicket) : Option ADFDoc :=
  t.fields.bind TicketFields.description

/-- `ISSUE_TYPE_MAP` (src/app.py line 250). -/
def ISSUE_TYPE_MAP : List (String × String) :=
  [("Story", "features"), ("New Feature", "features"), ("Improvement", "features"),
   ("Epic", "features"), ("Bug", "fixes"), ("Defect", "fixes"),
   ("Task", "maintenance"), ("Sub-task", "maintenance"), ("Chore", "maintenance"),
   ("Technical Debt", "maintenance")]

/-- `ISSUE_TYPE_MAP.get(issue_type, "maintenance")` (src/app.py line 253). -/
def classifyIssueType (name : String) : String :=
  (ISSUE_TYPE_MAP.lookup name).getD "maintenance"

/-- A ticket paired with the AI summary the handler stores on it as
`releaseNoteSummary` (src/app.py line 121). -/
abbrev TS := JiraTicket × String

/-- A rendered ticket line (src/app.py line 259). -/
def ticketLine (domain : String) (t : TS) : String :=
  "- [" ++ t.1.key ++ "](https://" ++ domain ++ "/browse/" ++ t.1.key ++ "): " ++ t.2

/-- One iteration of the categorisation loop (src/app.py lines 251-253):
append the ticket to the bucket named by its classified issue type. -/
def catStep (acc : List TS × List TS × List TS) (t : TS) : List TS × List TS × List TS :=
  let c := classifyIssueType (ticketIssueName t.1)
  if c = "features" then (acc.1 ++ [t], acc.2.1, acc.2.2)
  else if c = "fixes" then (acc.1, acc.2.1 ++ [t], acc.2.2)
  else (acc.1, acc.2.1, acc.2.2 ++ [t])

/-- Python truthiness of an optional string field (`None` and `""` are
falsy). -/
def truthyOpt : Option String → Bool
  | none => false
  | some s => !(s == "")

/-- The title line (src/app.py lines 246-247). -/
def titleLineOf (version codename : Option String) : String :=
  let t := if truthyOpt version then "# Release " ++ version.getD "" else "# Release Notes"
  if truthyOpt codename then t ++ " - \"" ++ codename.getD "" ++ "\"" else t

/-- The `md_lines` list built by `generate_final_markdown` (src/app.py lines
234-260), before the final `"\n".join`.  `dateIso` is
`datetime.now().strftime('%Y-%m-%d')` passed in explicitly. -/
def finalMarkdownLines (mongo_intro release_highlights upstream_section : String)
    (tickets : List TS) (version codename : Option String)
    (domain dateIso : String) : List String :=
  let md1 : List String := if mongo_intro ≠ "" then [mongo_intro, "\n---"] else []
  let md2 :=
    if release_highlights ≠ "" ∧ pyStrip release_highlights ≠ "" then
      md1 ++ ["## Release Highlights",
        "\nThis release provides the following features and improvements:\n",
        release_highlights, "\n---"]
    else md1
  let md3 := if upstream_section ≠ "" then md2 ++ [upstream_section, "\n---"] else md2
  let md4 := md3 ++ [titleLineOf version codename, "*Released on: " ++ dateIso ++ "*", "---"]
  let cats := tickets.foldl catStep ([], [], [])
  let md5 := md4 ++
    (if cats.1 ≠ [] then "## ✨ New Features & Enhancements" :: (cats.1.map (ticketLine domain) ++ [""]) else [])
  let md6 := md5 ++
    (if cats.2.1 ≠ [] then "## 🐛 Bug Fixes" :: (cats.2.1.map (ticketLine domain) ++ [""]) else [])
  md6 ++
    (if cats.2.2 ≠ [] then "## 🔧 Technical & Maintenance" :: (cats.2.2.map (ticketLine domain) ++ [""]) else [])

/-- `generate_final_markdown` (src/app.py lines 234-261). -/
def generate_final_markdown (mongo_intro release_highlights upstream_section : String)
    (tickets : List TS) (version codename : Option String)
    (domain dateIso : String) : String :=
  String.intercalate "\n"
    (finalMarkdownLines mongo_intro release_highlights upstream_section tickets
      version codename domain dateIso)

/-! ## HTTP endpoint layer -/

/-- A release document, restricted to the fields the handlers read and
write. -/
structure ReleaseDoc where
  version : Option String
  codename : Option String
  releaseHighlights : Option String
  jiraTickets : Option String
  upstreamBugUrls : Option String
  upstreamUrls : Option String
  generatedMarkdown : Option String
deriving DecidableEq

/-- The possible HTTP responses of POST `/api/releases/{id}/generate`. -/
inductive GenResponse where
  /-- 404: `{"error": "Release not found"}`. -/
  | notFound
  /-- 400: `{"error": "JIRA settings are incomplete. ..."}`. -/
  | badSettings
  /-- 400: `{"error": "Could not fetch data for any JIRA tickets."}`. -/
  | badTickets
  /-- 200: `{"markdown": ...}`. -/
  | ok (markdown : String)
deriving DecidableEq

/-- `all([domain, email, token])` over the three JIRA settings (src/app.py
lines 102-103); `None` (absent key) and `""` are both falsy. -/
def jiraSettingsOk (settings : Doc) : Bool :=
  truthyOpt (settings.lookup "jiraUrl") &&
  truthyOpt (settings.lookup "jiraEmail") &&
  truthyOpt (settings.lookup "jiraToken")

/-- The per-key fetch/summarize loop of `generate_release_notes` (src/app.py
lines 115-122).  `fetch` is the `fetch_jira_ticket` oracle: `none` models
the caught `RequestException` (the key is skipped).  An uncaught error out
of `get_summary_from_ai` aborts the request (`none`). -/
def fetchLoop : List String → (String → Option JiraTicket) →
    (String → Option GeminiResponse) → Option (List TS)
  | [], _, _ => some []
  | k :: ks, fetch, api =>
      match fetch (pyUpper k) with
      | none => fetchLoop ks fetch api
      | some t =>
          let title := ticketTitle t
          let description_text := parse_jira_description (ticketDescription t)
          match get_summary_from_ai title description_text api false with
          | (none, _) => none
          | (some s, _) => (fetchLoop ks fetch api).map (fun rest => (t, s) :: rest)

/-- `db.releases.update_one({'_id': oid}, {'$set': {'generatedMarkdown':
md}})` (src/app.py line 129): sets the field on the first (unique) matching
document; no match changes nothing. -/
def updateFirstRelease : List (String × ReleaseDoc) → String → String →
    List (String × ReleaseDoc)
  | [], _, _ => []
  | (i, r) :: rest, release_id, md =>
      if i = release_id then (i, { r with generatedMarkdown := some md }) :: rest
      else (i, r) :: updateFirstRelease rest release_id md

/-- POST `/api/releases/{id}/generate` — `generate_release_notes`
(src/app.py lines 93-131).  `release_id` is the already-parsed ObjectId.
The overall `none` models an uncaught exception escaping the handler (no
JSON response, and no store write since the write is the last step).
Otherwise the result is the response paired with the new releases store. -/
def generate_release_notes (settingsDoc : Option Doc)
    (store : List (String × ReleaseDoc)) (release_id : String)
    (fetch : String → Option JiraTicket) (api : String → Option GeminiResponse)
    (scrape : String → Option (String × String)) (dateB dateIso : String) :
    Option (GenResponse × List (String × ReleaseDoc)) :=
  let settings : Doc := settingsDoc.getD []
  match store.lookup release_id with
  | none => some (.notFound, store)
  | some release =>
      if !(jiraSettingsOk settings) then some (.badSettings, store)
      else
        let domain := (settings.lookup "jiraUrl").getD ""
        let mongo_intro := generate_mongo_intro (release.upstreamUrls.getD "")
          (release.version.getD "") dateB
        let release_highlights := release.releaseHighlights.getD ""
        match process_upstream_bugs (release.upstreamBugUrls.getD "")
            (release.upstreamUrls.getD "") scrape api with
        | none => none
        | some upstream_section =>
            let ticket_keys := ticketKeysOf (release.jiraTickets.getD "")
            match fetchLoop ticket_keys fetch api with
            | none => none
            | some tickets_with_summaries =>
                if tickets_with_summaries = [] ∧ ticket_keys ≠ [] then
                  some (.badTickets, store)
                else
                  let md := generate_final_markdown mongo_intro release_highlights
                    upstream_section tickets_with_summaries release.version
                    release.codename domain dateIso
                  some (.ok md, updateFirstRelease store release_id md)

/-- `update_one({'_id': oid}, {'$set': data})` on the releases collection
for the PUT branch of `release_detail`: merge into the first matching
document, no upsert. -/
def updateFirstDoc : List (String × Doc) → String → Doc → List (String × Doc)
  | [], _, _ => []
  | (i, d) :: rest, release_id, data =>
      if i = release_id then (i, setMerge d data) :: rest
      else (i, d) :: updateFirstDoc rest release_id data

/-- `delete_one({'_id': oid})`: remove the first matching document, if
any. -/
def deleteFirstDoc : List (String × Doc) → String → List (String × Doc)
  | [], _ => []
  | (i, d) :: rest, release_id =>
      if i = release_id then rest else (i, d) :: deleteFirstDoc rest release_id

/-- GET branch of `release_detail` (src/app.py lines 75-82): status code and
body document. -/
def release_detail_get (store : List (String × Doc)) (release_id : String) :
    Nat × Option Doc :=
  match store.lookup release_id with
  | some r => (200, some r)
  | none => (404, none)

/-- PUT branch of `release_detail` (src/app.py lines 83-87): always answers
200 with a success message; the store update matches at most one document
and never inserts. -/
def release_detail_put (store : List (String × Doc)) (release_id : String)
    (data : Doc) : (Nat × String) × List (String × Doc) :=
  ((200, "Release updated successfully."), updateFirstDoc store release_id data)

/-- DELETE branch of `release_detail` (src/app.py lines 88-91): always
answers 200 with a success message. -/
def release_detail_delete (store : List (String × Doc)) (release_id : String) :
    (Nat × String) × List (String × Doc) :=
  ((200, "Release deleted successfully."), deleteFirstDoc store release_id)

/-! ## Specification-side section blocks (for claim C8) -/

/-- Intro section block: present exactly when the intro paragraph is
non-empty. -/
def introBlock (mi : String) : List String :=
  if mi ≠ "" then [mi, "\n---"] else []

/-- Release-highlights section block: present exactly when the highlights
text has non-whitespace content. -/
def highlightsBlock (rh : String) : List String :=
  if pyStrip rh ≠ "" then
    ["## Release Highlights",
     "\nThis release provides the following features and improvements:\n",
     rh, "\n---"]
  else []

/-- Upstream-improvements section block: present exactly when the upstream
section is non-empty. -/
def upstreamBlock (us : String) : List String :=
  if us ≠ "" then [us, "\n---"] else []

/-- Unconditional header block: title line, release-date line, rule. -/
def headerBlock (version codename : Option String) (dateIso : String) : List String :=
  [titleLineOf version codename, "*Released on: " ++ dateIso ++ "*", "---"]

/-- Whether a summarized ticket classifies into the named bucket. -/
def isCat (cat : String) (t : TS) : Bool :=
  classifyIssueType (ticketIssueName t.1) == cat

/-- A ticket-category section block: present exactly when the bucket is
non-empty. -/
def categoryBlock (domain title : String) (ts : List TS) : List String :=
  if ts ≠ [] then title :: (ts.map (ticketLine domain) ++ [""]) else []

/-- The assembled line list as the spec describes it: fixed section order,
each section omitted entirely when it has no content. -/
def specMarkdownLines (mi rh us : String) (tickets : List TS)
    (version codename : Option String) (domain dateIso : String) : List String :=
  introBlock mi ++ highlightsBlock rh ++ upstreamBlock us ++
  headerBlock version codename dateIso ++
  categoryBlock domain "## ✨ New Features & Enhancements" (tickets.filter (isCat "features")) ++
  categoryBlock domain "## 🐛 Bug Fixes" (tickets.filter (isCat "fixes")) ++
  categoryBlock domain "## 🔧 Technical & Maintenance" (tickets.filter (isCat "maintenance"))

/-! ## Helper lemmas -/

theorem lookup_append_doc (k : String) (l1 l2 : Doc) :
    (l1 ++ l2).lookup k =
      match l1.lookup k with
      | some v => some v
      | none => l2.lookup k := by
  induction l1 with
  | nil => simp
  | cons a t ih =>
      obtain ⟨ka, va⟩ := a
      by_cases h : ka = k
      · subst h
        simp [List.lookup_cons]
      · simp [List.lookup_cons, beq_false_of_ne (Ne.symm h), ih]

theorem lookup_filter_of_not_in (doc data : Doc) (k : String)
    (h : data.lookup k = none) :
    (doc.filter (fun p => (data.lookup p.1).isNone)).lookup k = doc.lookup k := by
  induction doc with
  | nil => simp
  | cons a t ih =>
      obtain ⟨ka, va⟩ := a
      by_cases hk : ka = k
      · subst hk
        simp [List.filter, h, List.lookup_cons]
      · by_cases hkept : (data.lookup ka).isNone
        · simp [List.filter, hkept, List.lookup_cons, beq_false_of_ne (Ne.symm hk), ih]
        · simp [List.filter, hkept, List.lookup_cons, beq_false_of_ne (Ne.symm hk), ih]

theorem lookup_setMerge (doc data : Doc) (k : String) :
    (setMerge doc data).lookup k =
      match data.lookup k with
      | some v => some v
      | none => doc.lookup k := by
  unfold setMerge
  rw [lookup_append_doc]
  cases h : data.lookup k with
  | some v => simp
  | none => simp [lookup_filter_of_not_in _ _ _ h]

theorem updateFirstDoc_of_absent (store : List (String × Doc)) (release_id : String)
    (data : Doc) (h : release_id ∉ store.map Prod.fst) :
    updateFirstDoc store release_id data = store := by
  induction store with
  | nil => rfl
  | cons a t ih =>
      obtain ⟨i, d⟩ := a
      simp only [List.map, List.mem_cons, not_or] at h
      simp [updateFirstDoc, Ne.symm h.1, ih h.2]

theorem deleteFirstDoc_of_absent (store : List (String × Doc)) (release_id : String)
    (h : release_id ∉ store.map Prod.fst) :
    deleteFirstDoc store release_id = store := by
  induction store with
  | nil => rfl
  | cons a t ih =>
      obtain ⟨i, d⟩ := a
      simp only [List.map, List.mem_cons, not_or] at h
      simp [deleteFirstDoc, Ne.symm h.1, ih h.2]

/-! ## Claim C2 -/

/-- C2 counterexample: POST `{"a": "1"}` then POST `{"b": "2"}`; the stored
settings are NOT overwritten wholesale — GET still returns the key `a` with
its old value although the last POST does not mention it. -/
theorem c2_settings_counterexample :
    (settingsGet (settingsPost (settingsPost none [("a", "1")]) [("b", "2")])).lookup "a"
      = some "1" ∧
    List.lookup "a" ([("b", "2")] : Doc) = none := by
  decide

/-- C2 (amended): POST `/api/settings` merges the posted object into the
stored document (`$set`) rather than replacing it: a subsequent GET returns
every posted key with its posted value, while a key the POST does not
mention (other than the fixed `_id`) keeps whatever value it had before. -/
theorem c2_settings_merge (st : Option Doc) (data : Doc) (k : String) :
    (∀ v, data.lookup k = some v →
      (settingsGet (settingsPost st data)).lookup k = some v) ∧
    (data.lookup k = none → k ≠ "_id" →
      (settingsGet (settingsPost st data)).lookup k = (settingsGet st).lookup k) := by
  constructor
  · intro v hv
    simp only [settingsPost, settingsGet, Option.getD_some]
    rw [lookup_setMerge, hv]
  · intro hnone hid
    simp only [settingsPost, settingsGet, Option.getD_some]
    rw [lookup_setMerge, hnone]
    cases st with
    | some d => rfl
    | none =>
        simp [List.lookup_cons, beq_false_of_ne hid]

/-- C2 witness: concrete instantiation of `c2_settings_merge` — after POST
`{"b": "2"}` over a store holding `{"a": "1"}`, GET returns `b = 2` and the
untouched key `a` keeps its old value. -/
theorem c2_settings_merge_witness :
    (settingsGet (settingsPost (some [("a", "1")]) [("b", "2")])).lookup "b" = some "2" ∧
    (settingsGet (settingsPost (some [("a", "1")]) [("b", "2")])).lookup "a" =
      (settingsGet (some [("a", "1")])).lookup "a" :=
  ⟨(c2_settings_merge (some [("a", "1")]) [("b", "2")] "b").1 "2" (by decide),
   (c2_settings_merge (some [("a", "1")]) [("b", "2")] "a").2 (by decide) (by decide)⟩

/-! ## Claim C7 -/

/-- C7: the fixed lookup maps Story / New Feature / Improvement / Epic to
features, Bug / Defect to fixes, Task / Sub-task / Chore / Technical Debt to
maintenance, and every issue-type string outside the table to
maintenance. -/
theorem c7_classification :
    (∀ s ∈ (["Story", "New Feature", "Improvement", "Epic"] : List String),
      classifyIssueType s = "features") ∧
    (∀ s ∈ (["Bug", "Defect"] : List String), classifyIssueType s = "fixes") ∧
    (∀ s ∈ (["Task", "Sub-task", "Chore", "Technical Debt"] : List String),
      classifyIssueType s = "maintenance") ∧
    (∀ s : String, s ∉ ISSUE_TYPE_MAP.map Prod.fst →
      classifyIssueType s = "maintenance") := by
  refine ⟨?_, ?_, ?_, ?_⟩
  · intro s hs
    fin_cases hs <;> rfl
  · intro s hs
    fin_cases hs <;> rfl
  · intro s hs
    fin_cases hs <;> rfl
  · intro s hs
    simp only [ISSUE_TYPE_MAP, List.map, List.mem_cons, not_or] at hs
    simp [classifyIssueType, ISSUE_TYPE_MAP, List.lookup_cons,
      beq_false_of_ne hs.1, beq_false_of_ne hs.2.1,
      beq_false_of_ne hs.2.2.1, beq_false_of_ne hs.2.2.2.1,
      beq_false_of_ne hs.2.2.2.2.1, beq_false_of_ne hs.2.2.2.2.2.1,
      beq_false_of_ne hs.2.2.2.2.2.2.1,
      beq_false_of_ne hs.2.2.2.2.2.2.2.1,
      beq_false_of_ne hs.2.2.2.2.2.2.2.2.1,
      beq_false_of_ne hs.2.2.2.2.2.2.2.2.2.1]

/-- C7 witness: `"Bug"` classifies into fixes and the unrecognized `"Spike"`
into maintenance. -/
theorem c7_classification_witness :
    classifyIssueType "Bug" = "fixes" ∧ classifyIssueType "Spike" = "maintenance" :=
  ⟨c7_classification.2.1 "Bug" (by decide),
   c7_classification.2.2.2 "Spike" (by decide)⟩

/-! ## Claim C10 -/

/-- C10: PUT and DELETE on `/api/releases/{id}` with a well-formed id that
matches no stored release still answer 200 with the success message, and
leave the store unchanged — in particular the PUT creates no document
(no upsert). -/
theorem c10_put_delete_missing (store : List (String × Doc)) (release_id : String)
    (data : Doc) (h : release_id ∉ store.map Prod.fst) :
    release_detail_put store release_id data
        = ((200, "Release updated successfully."), store) ∧
    release_detail_delete store release_id
        = ((200, "Release deleted successfully."), store) := by
  unfold release_detail_put release_detail_delete
  rw [updateFirstDoc_of_absent store release_id data h,
    deleteFirstDoc_of_absent store release_id h]
  exact ⟨rfl, rfl⟩

/-- C10 witness: concrete store with one release `a`; PUT and DELETE on the
missing id `b` answer 200 and leave the store as it was. -/
theorem c10_put_delete_missing_witness :
    release_detail_put [("a", [("v", "1")])] "b" [("x", "y")]
        = ((200, "Release updated successfully."), [("a", [("v", "1")])]) ∧
    release_detail_delete [("a", [("v", "1")])] "b"
        = ((200, "Release deleted successfully."), [("a", [("v", "1")])]) :=
  c10_put_delete_missing [("a", [("v", "1")])] "b" [("x", "y")] (by decide)

/-! ## Claim C1 -/

/-- C1 counterexample: on the ticket-key input `"ABC-2, abc-1,,ABC-2"` the
pipeline does NOT fetch `ABC-1` then `ABC-2`.  The `set`/`sorted` run on the
raw, mixed-case tokens and `.upper()` is applied only per-key at fetch time,
so the raw key `"ABC-2"` sorts before `"abc-1"` (upper-case code points are
smaller). -/
theorem c1_key_sequence_counterexample :
    fetchedKeySeq "ABC-2, abc-1,,ABC-2" ≠ ["ABC-1", "ABC-2"] := by
  decide

/-- C1 (amended): keys are split on commas/whitespace/newlines, blanks
dropped, duplicates removed case-sensitively, and sorted lexicographically
on the raw key strings; each key is upper-cased only when fetched.  For the
input `"ABC-2, abc-1,,ABC-2"` the processed keys are `ABC-2`, `abc-1` and
the fetched sequence is `ABC-2` then `ABC-1`. -/
theorem c1_key_sequence :
    ticketKeysOf "ABC-2, abc-1,,ABC-2" = ["ABC-2", "abc-1"] ∧
    fetchedKeySeq "ABC-2, abc-1,,ABC-2" = ["ABC-2", "ABC-1"] := by
  decide

/-! ## Claim C6 -/

mutual

theorem nodeTexts_pre : ∀ n : JNode, nodeTexts n = (nodePre n).filterMap textLeafVal
  | .mk ty tx co => by
      cases co with
      | none =>
          by_cases hty : ty = some "text"
          · cases tx <;>
              simp [nodeTexts, nodePre, textLeafVal, JNode.ty, JNode.tx, hty,
                List.filterMap_cons]
          · simp [nodeTexts, nodePre, textLeafVal, JNode.ty, JNode.tx, hty,
              List.filterMap_cons]
      | some l =>
          have hl := listTexts_pre l
          by_cases hty : ty = some "text"
          · cases tx <;>
              simp [nodeTexts, nodePre, textLeafVal, JNode.ty, JNode.tx, hty, hl,
                List.filterMap_cons]
          · simp [nodeTexts, nodePre, textLeafVal, JNode.ty, JNode.tx, hty, hl,
              List.filterMap_cons]

theorem listTexts_pre : ∀ l : List JNode, listTexts l = (listPre l).filterMap textLeafVal
  | [] => rfl
  | n :: rest => by
      simp [listTexts, listPre, List.filterMap_append, nodeTexts_pre n,
        listTexts_pre rest]

end

/-- C6: `parse_jira_description` returns the space-separated concatenation,
in depth-first pre-order, of the string carried by every node tagged
`"text"`; an absent description, an absent content key, or an empty content
list all yield the empty string. -/
theorem c6_parse_description :
    (∀ d : Option ADFDoc,
      parse_jira_description d =
        String.intercalate " " ((listPre (docNodes d)).filterMap textLeafVal)) ∧
    parse_jira_description none = "" ∧
    parse_jira_description (some ⟨none⟩) = "" ∧
    parse_jira_description (some ⟨some []⟩) = "" := by
  refine ⟨?_, rfl, rfl, rfl⟩
  intro d
  cases d with
  | none => rfl
  | some dd =>
      obtain ⟨co⟩ := dd
      cases co with
      | none => rfl
      | some nodes =>
          simp [parse_jira_description, docNodes, ADFDoc.content, listTexts_pre nodes]

/-! ## Claim C5 -/

/-- C5: the summarizer returns the title unchanged and makes no API call
when the description is blank; it returns the title after a caught
transport/HTTP error; and it returns the title when the extracted
first-candidate text is the empty string. -/
theorem c5_summarizer_fallbacks (title description : String)
    (api : String → Option GeminiResponse) (u : Bool) :
    (pyStrip description = "" →
      get_summary_from_ai title description api u = (some title, false)) ∧
    (pyStrip description ≠ "" → api (buildPrompt title description u) = none →
      get_summary_from_ai title description api u = (some title, true)) ∧
    (∀ r, pyStrip description ≠ "" → api (buildPrompt title description u) = some r →
      extractGeminiText r = some "" →
      get_summary_from_ai title description api u = (some title, true)) := by
  refine ⟨?_, ?_, ?_⟩
  · intro h
    simp [get_summary_from_ai, h]
  · intro h hapi
    simp [get_summary_from_ai, h, hapi]
  · intro r h hapi hex
    simp [get_summary_from_ai, h, hapi, hex]

/-- C5 witness: blank description (no call), failing API call, and an
empty extracted candidate text all yield the title. -/
theorem c5_summarizer_fallbacks_witness :
    get_summary_from_ai "T" "  " (fun _ => none) false = (some "T", false) ∧
    get_summary_from_ai "T" "d" (fun _ => none) false = (some "T", true) ∧
    get_summary_from_ai "T" "d" (fun _ => some ⟨some [⟨some ⟨some [⟨some ""⟩]⟩⟩]⟩) false
      = (some "T", true) :=
  ⟨(c5_summarizer_fallbacks "T" "  " (fun _ => none) false).1 (by decide),
   (c5_summarizer_fallbacks "T" "d" (fun _ => none) false).2.1 (by decide) rfl,
   (c5_summarizer_fallbacks "T" "d"
       (fun _ => some ⟨some [⟨some ⟨some [⟨some ""⟩]⟩⟩]⟩) false).2.2
     ⟨some [⟨some ⟨some [⟨some ""⟩]⟩⟩]⟩ (by decide) rfl rfl⟩

/-! ## Claim C4 -/

theorem takeWhile_append_of_all (p : Char → Bool) (l1 l2 : List Char)
    (h : l1.all p = true) :
    (l1 ++ l2).takeWhile p = l1 ++ l2.takeWhile p := by
  induction l1 with
  | nil => simp
  | cons a t ih =>
      simp only [List.all_cons, Bool.and_eq_true] at h
      simp [List.takeWhile_cons, h.1, ih h.2]

theorem dropWhile_append_of_all (p : Char → Bool) (l1 l2 : List Char)
    (h : l1.all p = true) :
    (l1 ++ l2).dropWhile p = l2.dropWhile p := by
  induction l1 with
  | nil => simp
  | cons a t ih =>
      simp only [List.all_cons, Bool.and_eq_true] at h
      simp [List.dropWhile_cons, h.1, ih h.2]


theorem matchTripleAt_some_decomp (cs : List Char)
    (h : (matchTripleAt cs).isSome = true) :
    ∃ d1 d2 d3 post : List Char,
      cs = d1 ++ '.' :: d2 ++ '.' :: d3 ++ post ∧ d1 ≠ [] ∧ d2 ≠ [] ∧ d3 ≠ [] ∧
      d1.all Char.isDigit ∧ d2.all Char.isDigit ∧ d3.all Char.isDigit := by
  simp only [matchTripleAt] at h
  by_cases h1 : cs.takeWhile Char.isDigit = []
  · simp [h1] at h
  · rw [if_neg h1] at h
    cases h2 : cs.dropWhile Char.isDigit with
    | nil => rw [h2] at h; simp at h
    | cons c cs2 =>
        rw [h2] at h
        simp only [] at h
        by_cases hc : c = '.'
        case neg => simp [hc] at h
        rw [if_pos hc] at h
        subst hc
        by_cases h3 : cs2.takeWhile Char.isDigit = []
        · simp [h3] at h
        · rw [if_neg h3] at h
          cases h4 : cs2.dropWhile Char.isDigit with
          | nil => rw [h4] at h; simp at h
          | cons c2 cs3 =>
              rw [h4] at h
              simp only [] at h
              by_cases hc2 : c2 = '.'
              case neg => simp [hc2] at h
              rw [if_pos hc2] at h
              subst hc2
              by_cases h5 : cs3.takeWhile Char.isDigit = []
              · simp [h5] at h
              · refine ⟨cs.takeWhile Char.isDigit, cs2.takeWhile Char.isDigit,
                  cs3.takeWhile Char.isDigit, cs3.dropWhile Char.isDigit,
                  ?_, h1, h3, h5, List.all_takeWhile, List.all_takeWhile,
                  List.all_takeWhile⟩
                have e1 : cs = cs.takeWhile Char.isDigit ++ '.' :: cs2 := by
                  conv_lhs => rw [← List.takeWhile_append_dropWhile Char.isDigit cs]
                  rw [h2]
                have e2 : cs2 = cs2.takeWhile Char.isDigit ++ '.' :: cs3 := by
                  conv_lhs => rw [← List.takeWhile_append_dropWhile Char.isDigit cs2]
                  rw [h4]
                have e3 : cs3 = cs3.takeWhile Char.isDigit ++ cs3.dropWhile Char.isDigit :=
                  (List.takeWhile_append_dropWhile Char.isDigit cs3).symm
                conv_lhs => rw [e1, e2, e3]
                simp [List.append_assoc]

theorem matchTripleAt_isSome_of_decomp (d1 d2 d3 post : List Char)
    (h1 : d1 ≠ []) (h2 : d2 ≠ []) (h3 : d3 ≠ [])
    (a1 : d1.all Char.isDigit = true) (a2 : d2.all Char.isDigit = true)
    (a3 : d3.all Char.isDigit = true) :
    (matchTripleAt (d1 ++ '.' :: d2 ++ '.' :: d3 ++ post)).isSome = true := by
  have hdot : ('.' : Char).isDigit = false := by decide
  simp [matchTripleAt,
    takeWhile_append_of_all _ _ _ a1, dropWhile_append_of_all _ _ _ a1,
    takeWhile_append_of_all _ _ _ a2, dropWhile_append_of_all _ _ _ a2,
    takeWhile_append_of_all _ _ _ a3,
    List.takeWhile_cons, List.dropWhile_cons, hdot, h1, h2, h3]

theorem searchTriple_isSome_iff (cs : List Char) :
    (searchTriple cs).isSome = true ↔
      ∃ pre d1 d2 d3 post : List Char,
        cs = pre ++ (d1 ++ '.' :: d2 ++ '.' :: d3 ++ post) ∧
        d1 ≠ [] ∧ d2 ≠ [] ∧ d3 ≠ [] ∧
        d1.all Char.isDigit ∧ d2.all Char.isDigit ∧ d3.all Char.isDigit := by
  induction cs with
  | nil =>
      constructor
      · intro h
        simp [searchTriple] at h
      · rintro ⟨pre, d1, d2, d3, post, hcs, hn1, hn2, hn3, a1, a2, a3⟩
        have h0 := hcs.symm
        simp [List.append_eq_nil] at h0
  | cons c cs ih =>
      cases hm : matchTripleAt (c :: cs) with
      | some v =>
          constructor
          · intro _
            obtain ⟨d1, d2, d3, post, hdec, hn1, hn2, hn3, a1, a2, a3⟩ :=
              matchTripleAt_some_decomp (c :: cs) (by rw [hm]; rfl)
            exact ⟨[], d1, d2, d3, post, by simpa using hdec, hn1, hn2, hn3, a1, a2, a3⟩
          · intro _
            simp [searchTriple, hm]
      | none =>
          have hlhs : searchTriple (c :: cs) = searchTriple cs := by
            simp [searchTriple, hm]
          rw [hlhs, ih]
          constructor
          · rintro ⟨pre, d1, d2, d3, post, hcs2, hn1, hn2, hn3, a1, a2, a3⟩
            refine ⟨c :: pre, d1, d2, d3, post, ?_, hn1, hn2, hn3, a1, a2, a3⟩
            rw [List.cons_append, ← hcs2]
          · rintro ⟨pre, d1, d2, d3, post, hcs2, hn1, hn2, hn3, a1, a2, a3⟩
            cases pre with
            | nil =>
                exfalso
                have hsome : (matchTripleAt (c :: cs)).isSome = true := by
                  rw [show (c :: cs) = d1 ++ '.' :: d2 ++ '.' :: d3 ++ post by
                    simpa using hcs2]
                  exact matchTripleAt_isSome_of_decomp d1 d2 d3 post hn1 hn2 hn3 a1 a2 a3
                rw [hm] at hsome
                simp at hsome
            | cons p pre2 =>
                have hcs3 : cs = pre2 ++ (d1 ++ '.' :: d2 ++ '.' :: d3 ++ post) := by
                  have h0 := hcs2
                  rw [List.cons_append] at h0
                  exact (List.cons.injEq _ _ _ _).mp h0 |>.2
                exact ⟨pre2, d1, d2, d3, post, hcs3, hn1, hn2, hn3, a1, a2, a3⟩

/-- C4: the version helper succeeds exactly on URLs containing a dotted
triplet of digits; it captures the first (leftmost) triplet; the same
helper drives both the intro links (`introPair`) and the upstream
release-note links (`releaseLinkLine`); and for a URL with no triplet the
rendered release-note link uses the placeholder word `version`. -/
theorem c4_version_extraction :
    (∀ s : String, (extractVersion s).isSome = true ↔ containsTriplet s) ∧
    extractVersion "https://www.mongodb.com/docs/manual/release-notes/6.0.5/" = some "6.0.5" ∧
    extractVersion "a1.2.3b4.5.6" = some "1.2.3" ∧
    (∀ url : String, ¬ containsTriplet url →
      releaseLinkLine url = "* [MongoDB version Community Edition](" ++ url ++ ")") ∧
    (∀ url v, extractVersion url = some v →
      introPair url = some (v, "[MongoDB " ++ v ++ " Community Edition](" ++ url ++ ")") ∧
      releaseLinkLine url = "* [MongoDB " ++ v ++ " Community Edition](" ++ url ++ ")") := by
  have hiff : ∀ s : String, (extractVersion s).isSome = true ↔ containsTriplet s := by
    intro s
    exact searchTriple_isSome_iff s.data
  refine ⟨hiff, by decide, by decide, ?_, ?_⟩
  · intro url hc
    have hnone : extractVersion url = none := by
      cases he : extractVersion url with
      | none => rfl
      | some v => exact absurd ((hiff url).mp (by rw [he]; rfl)) hc
    simp [releaseLinkLine, hnone]
  · intro url v he
    constructor
    · simp [introPair, he]
    · simp [releaseLinkLine, he]

/-- C4 witness: a URL with no dotted triplet renders the placeholder link,
and a URL carrying `6.0.5` renders the versioned intro link. -/
theorem c4_version_extraction_witness :
    releaseLinkLine "https://example.com/release-notes"
        = "* [MongoDB version Community Edition](https://example.com/release-notes)" ∧
    introPair "https://x/6.0.5/notes"
        = some ("6.0.5", "[MongoDB 6.0.5 Community Edition](https://x/6.0.5/notes)") :=
  ⟨c4_version_extraction.2.2.2.1 "https://example.com/release-notes"
      (fun hc =>
        absurd ((c4_version_extraction.1 "https://example.com/release-notes").mpr hc)
          (by decide)),
   (c4_version_extraction.2.2.2.2 "https://x/6.0.5/notes" "6.0.5" (by decide)).1⟩

/-! ## Claim C8 -/

theorem classify_cases (s : String) :
    classifyIssueType s = "features" ∨ classifyIssueType s = "fixes" ∨
    classifyIssueType s = "maintenance" := by
  unfold classifyIssueType ISSUE_TYPE_MAP
  simp only [List.lookup_cons]
  repeat' split
  all_goals simp

theorem foldl_catStep (ts : List TS) (f0 x0 m0 : List TS) :
    ts.foldl catStep (f0, x0, m0) =
      (f0 ++ ts.filter (isCat "features"),
       x0 ++ ts.filter (isCat "fixes"),
       m0 ++ ts.filter (isCat "maintenance")) := by
  induction ts generalizing f0 x0 m0 with
  | nil => simp
  | cons t ts ih =>
      rcases classify_cases (ticketIssueName t.1) with hc | hc | hc <;>
        simp [List.foldl_cons, catStep, hc, ih, isCat, List.filter_cons]

theorem ne_of_take_ne (s t : String) (n : Nat) (h : s.data.take n ≠ t.data.take n) :
    s ≠ t :=
  fun he => h (by rw [he])

theorem titleLineOf_take2 (v c : Option String) :
    (titleLineOf v c).data.take 2 = ['#', ' '] := by
  unfold titleLineOf
  by_cases hv : truthyOpt v = true <;> by_cases hc : truthyOpt c = true <;>
    simp [hv, hc]

theorem ticketLine_take3 (d : String) (t : TS) :
    (ticketLine d t).data.take 3 = ['-', ' ', '['] := rfl

theorem titleLineOf_ne_header (v c : Option String) :
    titleLineOf v c ≠ "## Release Highlights" :=
  ne_of_take_ne _ _ 2 (by rw [titleLineOf_take2]; decide)

theorem ticketLine_ne_header (d : String) (t : TS) :
    ticketLine d t ≠ "## Release Highlights" :=
  ne_of_take_ne _ _ 3 (by rw [ticketLine_take3]; decide)

theorem dateLine_ne_header (dt : String) :
    ("*Released on: " ++ dt ++ "*") ≠ "## Release Highlights" :=
  ne_of_take_ne _ _ 1 (by rw [show ("*Released on: " ++ dt ++ "*").data.take 1 = ['*'] from rfl]; decide)

theorem hdr_not_mem_intro (mi : String) (hmi : mi ≠ "## Release Highlights") :
    "## Release Highlights" ∉ introBlock mi := by
  unfold introBlock
  split
  · intro h
    rcases List.mem_cons.mp h with he | h2
    · exact hmi he.symm
    · rcases List.mem_cons.mp h2 with he | h3
      · exact absurd he (by decide)
      · simp at h3
  · simp

theorem hdr_not_mem_upstream (us : String) (hus : us ≠ "## Release Highlights") :
    "## Release Highlights" ∉ upstreamBlock us := by
  unfold upstreamBlock
  split
  · intro h
    rcases List.mem_cons.mp h with he | h2
    · exact hus he.symm
    · rcases List.mem_cons.mp h2 with he | h3
      · exact absurd he (by decide)
      · simp at h3
  · simp

theorem hdr_not_mem_header (v c : Option String) (dt : String) :
    "## Release Highlights" ∉ headerBlock v c dt := by
  unfold headerBlock
  intro h
  rcases List.mem_cons.mp h with he | h2
  · exact titleLineOf_ne_header v c he.symm
  · rcases List.mem_cons.mp h2 with he | h3
    · exact dateLine_ne_header dt he.symm
    · rcases List.mem_cons.mp h3 with he | h4
      · exact absurd he (by decide)
      · simp at h4

theorem hdr_not_mem_category (d title : String) (ts : List TS)
    (htitle : title ≠ "## Release Highlights") :
    "## Release Highlights" ∉ categoryBlock d title ts := by
  unfold categoryBlock
  split
  · intro h
    rcases List.mem_cons.mp h with he | h2
    · exact htitle he.symm
    · rcases List.mem_append.mp h2 with h3 | h4
      · rcases List.mem_map.mp h3 with ⟨t, ht, he⟩
        exact ticketLine_ne_header d t he
      · rcases List.mem_cons.mp h4 with he | h5
        · exact absurd he (by decide)
        · simp at h5
  · simp

theorem finalMarkdownLines_eq_spec (mi rh us : String) (ts : List TS)
    (v c : Option String) (d dt : String) :
    finalMarkdownLines mi rh us ts v c d dt = specMarkdownLines mi rh us ts v c d dt := by
  unfold finalMarkdownLines specMarkdownLines introBlock highlightsBlock upstreamBlock
    headerBlock categoryBlock
  rw [foldl_catStep ts [] [] []]
  by_cases h2 : pyStrip rh = ""
  all_goals
    first
      | (have hside : ¬(rh ≠ "" ∧ pyStrip rh ≠ "") := fun hh => hh.2 h2
         by_cases hmi : mi = "" <;> by_cases hus : us = "" <;>
           simp [h2, hside, hmi, hus, List.append_assoc])
      | (have hrh : rh ≠ "" := fun he => h2 (by rw [he]; rfl)
         by_cases hmi : mi = "" <;> by_cases hus : us = "" <;>
           simp [h2, hrh, hmi, hus, List.append_assoc])

/-- C8: the assembled markdown is the newline-join of the sections in the
fixed order intro, release highlights, upstream improvements, title line,
release-date line, features, fixes, maintenance, where every section with no
content is the empty block; and when the release highlights are empty or
whitespace-only no `## Release Highlights` header line is emitted (the
hypotheses on `mi` and `us` exclude the degenerate case of a neighbouring
section's full text being exactly that header line). -/
theorem c8_markdown_assembly (mi rh us : String) (ts : List TS)
    (v c : Option String) (d dt : String) :
    generate_final_markdown mi rh us ts v c d dt
      = String.intercalate "\n" (specMarkdownLines mi rh us ts v c d dt) ∧
    (pyStrip rh = "" → mi ≠ "## Release Highlights" → us ≠ "## Release Highlights" →
      "## Release Highlights" ∉ finalMarkdownLines mi rh us ts v c d dt) := by
  constructor
  · unfold generate_final_markdown
    rw [finalMarkdownLines_eq_spec]
  · intro htrim hmi hus
    rw [finalMarkdownLines_eq_spec]
    have hhl : highlightsBlock rh = [] := by simp [highlightsBlock, htrim]
    unfold specMarkdownLines
    rw [hhl]
    intro h
    simp only [List.mem_append, List.append_nil] at h
    rcases h with ((((h | h) | h) | h) | h) | h
    · exact hdr_not_mem_intro mi hmi h
    · exact hdr_not_mem_upstream us hus h
    · exact hdr_not_mem_header v c dt h
    · exact hdr_not_mem_category d _ _ (by decide) h
    · exact hdr_not_mem_category d _ _ (by decide) h
    · exact hdr_not_mem_category d _ _ (by decide) h

/-- C8 witness: with whitespace-only release highlights (and empty intro and
upstream sections) the assembled line list contains no highlights header. -/
theorem c8_markdown_assembly_witness :
    "## Release Highlights" ∉ finalMarkdownLines "" " " "" [] none none "dom" "2025-01-01" :=
  (c8_markdown_assembly "" " " "" [] none none "dom" "2025-01-01").2
    (by decide) (by decide) (by decide)

/-! ## Claims C9 and C3 -/

/-- C9: whenever the generate endpoint answers with an error response (the
404 for a missing release or either 400), the releases store — and in
particular the release's `generatedMarkdown` field — is unchanged; the store
is written only on the success path. -/
theorem c9_error_leaves_store (settingsDoc : Option Doc)
    (store : List (String × ReleaseDoc)) (release_id : String)
    (fetch : String → Option JiraTicket) (api : String → Option GeminiResponse)
    (scrape : String → Option (String × String)) (dateB dateIso : String)
    (resp : GenResponse) (store2 : List (String × ReleaseDoc))
    (h : generate_release_notes settingsDoc store release_id fetch api scrape dateB dateIso
      = some (resp, store2))
    (herr : ∀ m, resp ≠ GenResponse.ok m) :
    store2 = store := by
  unfold generate_release_notes at h
  cases hl : List.lookup release_id store with
  | none =>
      rw [hl] at h
      simp only [Option.some.injEq, Prod.mk.injEq] at h
      exact h.2.symm
  | some rel =>
      rw [hl] at h
      simp only [] at h
      by_cases hs : (!jiraSettingsOk (settingsDoc.getD [])) = true
      · rw [if_pos hs] at h
        simp only [Option.some.injEq, Prod.mk.injEq] at h
        exact h.2.symm
      · rw [if_neg hs] at h
        cases hp : process_upstream_bugs (rel.upstreamBugUrls.getD "")
            (rel.upstreamUrls.getD "") scrape api with
        | none => rw [hp] at h; simp at h
        | some us =>
            rw [hp] at h
            simp only [] at h
            cases hf : fetchLoop (ticketKeysOf (rel.jiraTickets.getD "")) fetch api with
            | none => rw [hf] at h; simp at h
            | some tl =>
                rw [hf] at h
                simp only [] at h
                by_cases ht : tl = [] ∧ ticketKeysOf (rel.jiraTickets.getD "") ≠ []
                · rw [if_pos ht] at h
                  simp only [Option.some.injEq, Prod.mk.injEq] at h
                  exact h.2.symm
                · rw [if_neg ht] at h
                  simp only [Option.some.injEq, Prod.mk.injEq] at h
                  exact absurd h.1.symm (herr _)

theorem get_summary_isSome (title desc : String) (api : String → Option GeminiResponse)
    (u : Bool) (Hwf : ∀ p r, api p = some r → (extractGeminiText r).isSome = true) :
    ((get_summary_from_ai title desc api u).1).isSome = true := by
  unfold get_summary_from_ai
  by_cases hd : pyStrip desc = ""
  · simp [hd]
  · rw [if_neg hd]
    cases ha : api (buildPrompt title desc u) with
    | none => simp
    | some r =>
        have hx := Hwf _ _ ha
        cases he : extractGeminiText r with
        | none => rw [he] at hx; simp at hx
        | some s => simp [he]

theorem processBugUrls_isSome (us : List String) (scrape : String → Option (String × String))
    (api : String → Option GeminiResponse)
    (Hwf : ∀ p r, api p = some r → (extractGeminiText r).isSome = true) :
    (processBugUrls us scrape api).isSome = true := by
  induction us with
  | nil => rfl
  | cons u us ih =>
      unfold processBugUrls
      cases hscr : scrape u with
      | none => exact ih
      | some td =>
          obtain ⟨t, d⟩ := td
          simp only []
          rcases hg : get_summary_from_ai t d api true with ⟨os, b⟩
          cases os with
          | none =>
              exfalso
              have hx := get_summary_isSome t d api true Hwf
              rw [hg] at hx
              simp at hx
          | some s =>
              cases hrec : processBugUrls us scrape api with
              | none => rw [hrec] at ih; simp at ih
              | some l => simp [hrec]

theorem process_upstream_bugs_isSome (b r : String)
    (scrape : String → Option (String × String)) (api : String → Option GeminiResponse)
    (Hwf : ∀ p r2, api p = some r2 → (extractGeminiText r2).isSome = true) :
    (process_upstream_bugs b r scrape api).isSome = true := by
  unfold process_upstream_bugs
  by_cases h1 : pyStrip b = ""
  · simp [h1]
  · rw [if_neg h1]
    by_cases h2 : urlListOf b = []
    · simp [h2]
    · rw [if_neg h2]
      cases hp : processBugUrls (urlListOf b) scrape api with
      | none =>
          have hx := processBugUrls_isSome (urlListOf b) scrape api Hwf
          rw [hp] at hx
          simp at hx
      | some l =>
          by_cases h3 : l = []
          · simp [h3]
          · simp only [h3]
            split <;> simp

theorem fetchLoop_spec (ks : List String) (fetch : String → Option JiraTicket)
    (api : String → Option GeminiResponse)
    (Hwf : ∀ p r, api p = some r → (extractGeminiText r).isSome = true) :
    ∃ l, fetchLoop ks fetch api = some l ∧
      (l = [] ↔ ∀ k ∈ ks, fetch (pyUpper k) = none) := by
  induction ks with
  | nil => exact ⟨[], rfl, by simp⟩
  | cons k ks ih =>
      obtain ⟨l, hl, hiff⟩ := ih
      unfold fetchLoop
      cases hf : fetch (pyUpper k) with
      | none =>
          refine ⟨l, hl, ?_, ?_⟩
          · intro he k2 hk2
            rcases List.mem_cons.mp hk2 with rfl | hm
            · exact hf
            · exact (hiff.mp he) k2 hm
          · intro hall
            exact hiff.mpr (fun k2 hk2 => hall k2 (List.mem_cons_of_mem _ hk2))
      | some t =>
          simp only []
          rcases hg : get_summary_from_ai (ticketTitle t)
              (parse_jira_description (ticketDescription t)) api false with ⟨os, b⟩
          cases os with
          | none =>
              exfalso
              have hx := get_summary_isSome (ticketTitle t)
                (parse_jira_description (ticketDescription t)) api false Hwf
              rw [hg] at hx
              simp at hx
          | some s =>
              refine ⟨(t, s) :: l, ?_, ?_⟩
              · rw [hl]
                rfl
              · constructor
                · intro he
                  simp at he
                · intro hall
                  exact absurd (hall k (List.mem_cons_self _ _)) (by rw [hf]; simp)

/-- C3 (amended): the generate endpoint answers 404 when the release is
missing, 400 when a required JIRA setting is absent or empty, 400 when keys
were supplied but every fetch failed, and otherwise 200 with the generated
markdown — PROVIDED every Gemini response is well-formed (its extraction
does not hit the uncaught `IndexError` of a present-but-empty `candidates`
or `parts` array, the `Hwf` hypothesis). -/
theorem c3_generate_statuses (settingsDoc : Option Doc)
    (store : List (String × ReleaseDoc)) (release_id : String)
    (fetch : String → Option JiraTicket) (api : String → Option GeminiResponse)
    (scrape : String → Option (String × String)) (dateB dateIso : String)
    (Hwf : ∀ p r, api p = some r → (extractGeminiText r).isSome = true) :
    (List.lookup release_id store = none →
      generate_release_notes settingsDoc store release_id fetch api scrape dateB dateIso
        = some (.notFound, store)) ∧
    (∀ rel, List.lookup release_id store = some rel →
      jiraSettingsOk (settingsDoc.getD []) = false →
      generate_release_notes settingsDoc store release_id fetch api scrape dateB dateIso
        = some (.badSettings, store)) ∧
    (∀ rel, List.lookup release_id store = some rel →
      jiraSettingsOk (settingsDoc.getD []) = true →
      ticketKeysOf (rel.jiraTickets.getD "") ≠ [] →
      (∀ k ∈ ticketKeysOf (rel.jiraTickets.getD ""), fetch (pyUpper k) = none) →
      generate_release_notes settingsDoc store release_id fetch api scrape dateB dateIso
        = some (.badTickets, store)) ∧
    (∀ rel, List.lookup release_id store = some rel →
      jiraSettingsOk (settingsDoc.getD []) = true →
      (ticketKeysOf (rel.jiraTickets.getD "") = [] ∨
        ∃ k ∈ ticketKeysOf (rel.jiraTickets.getD ""), fetch (pyUpper k) ≠ none) →
      ∃ md, generate_release_notes settingsDoc store release_id fetch api scrape dateB dateIso
        = some (.ok md, updateFirstRelease store release_id md)) := by
  refine ⟨?_, ?_, ?_, ?_⟩
  · intro hl
    unfold generate_release_notes
    rw [hl]
  · intro rel hl hs
    unfold generate_release_notes
    rw [hl]
    simp only []
    rw [if_pos (by rw [hs]; rfl)]
  · intro rel hl hs hkeys hall
    unfold generate_release_notes
    rw [hl]
    simp only []
    rw [if_neg (by rw [hs]; simp)]
    obtain ⟨us, hp⟩ := Option.isSome_iff_exists.mp
      (process_upstream_bugs_isSome (rel.upstreamBugUrls.getD "")
        (rel.upstreamUrls.getD "") scrape api Hwf)
    rw [hp]
    simp only []
    obtain ⟨l, hfl, hiff⟩ := fetchLoop_spec (ticketKeysOf (rel.jiraTickets.getD "")) fetch api Hwf
    rw [hfl]
    simp only []
    rw [if_pos ⟨hiff.mpr hall, hkeys⟩]
  · intro rel hl hs hsome
    unfold generate_release_notes
    rw [hl]
    simp only []
    rw [if_neg (by rw [hs]; simp)]
    obtain ⟨us, hp⟩ := Option.isSome_iff_exists.mp
      (process_upstream_bugs_isSome (rel.upstreamBugUrls.getD "")
        (rel.upstreamUrls.getD "") scrape api Hwf)
    rw [hp]
    simp only []
    obtain ⟨l, hfl, hiff⟩ := fetchLoop_spec (ticketKeysOf (rel.jiraTickets.getD "")) fetch api Hwf
    rw [hfl]
    simp only []
    have hcond : ¬(l = [] ∧ ticketKeysOf (rel.jiraTickets.getD "") ≠ []) := by
      rcases hsome with hk | ⟨k, hk, hf⟩
      · exact fun hh => hh.2 hk
      · exact fun hh => hf ((hiff.mp hh.1) k hk)
    rw [if_neg hcond]
    exact ⟨_, rfl⟩

/-- C3 counterexample: with the release present, all three JIRA settings
set, and the single ticket key fetched successfully, a Gemini response of
`{"candidates": []}` makes `result.get("candidates", [{}])[0]` raise an
uncaught `IndexError`, so the endpoint answers none of 404/400/200 (the
handler result is `none`, an escaped exception). -/
theorem c3_generate_counterexample :
    generate_release_notes
      (some [("_id", "global_settings"), ("jiraUrl", "example.atlassian.net"),
             ("jiraEmail", "e@x.com"), ("jiraToken", "tok")])
      [("r1", ⟨some "1.2.3", none, none, some "ABC-1", none, none, none⟩)] "r1"
      (fun k => if k = "ABC-1" then
          some ⟨"ABC-1", some ⟨some "Fix crash", some ⟨some "Bug"⟩,
            some ⟨some [.mk (some "text") (some "Crash on start") none]⟩⟩⟩
        else none)
      (fun _ => some ⟨some []⟩) (fun _ => none) "Jan 01, 2025" "2025-01-01" = none ∧
    List.lookup "r1"
      [("r1", (⟨some "1.2.3", none, none, some "ABC-1", none, none, none⟩ : ReleaseDoc))]
      ≠ none ∧
    jiraSettingsOk [("_id", "global_settings"), ("jiraUrl", "example.atlassian.net"),
      ("jiraEmail", "e@x.com"), ("jiraToken", "tok")] = true ∧
    ((fun k => if k = "ABC-1" then
          some (⟨"ABC-1", some ⟨some "Fix crash", some ⟨some "Bug"⟩,
            some ⟨some [.mk (some "text") (some "Crash on start") none]⟩⟩⟩ : JiraTicket)
        else none) "ABC-1") ≠ none := by
  refine ⟨?_, by decide, by decide, by decide⟩
  decide

/-- C9 witness: a generate call on a missing id returns the 404 response and
the store it returns is the store it was given. -/
theorem c9_error_leaves_store_witness :
    ([("r1", (⟨none, none, none, none, none, none, none⟩ : ReleaseDoc))])
      = [("r1", (⟨none, none, none, none, none, none, none⟩ : ReleaseDoc))] :=
  c9_error_leaves_store none [("r1", ⟨none, none, none, none, none, none, none⟩)] "r2"
    (fun _ => none) (fun _ => none) (fun _ => none) "a" "b" GenResponse.notFound
    [("r1", ⟨none, none, none, none, none, none, none⟩)]
    (by decide) (fun m h => nomatch h)

/-- C3 witness: concrete instantiations of `c3_generate_statuses` — a
missing release id yields the 404 response, and an empty ticket-key list
with complete settings yields a 200 with some markdown. -/
theorem c3_generate_statuses_witness :
    generate_release_notes none [] "r" (fun _ => none) (fun _ => none)
        (fun _ => none) "a" "b" = some (.notFound, []) ∧
    (∃ md, generate_release_notes
        (some [("jiraUrl", "j"), ("jiraEmail", "e"), ("jiraToken", "t")])
        [("r1", ⟨none, none, none, none, none, none, none⟩)] "r1"
        (fun _ => none) (fun _ => none) (fun _ => none) "a" "b"
      = some (.ok md,
          updateFirstRelease [("r1", ⟨none, none, none, none, none, none, none⟩)] "r1" md)) :=
  ⟨(c3_generate_statuses none [] "r" (fun _ => none) (fun _ => none)
      (fun _ => none) "a" "b" (fun _ _ h => nomatch h)).1 rfl,
   (c3_generate_statuses (some [("jiraUrl", "j"), ("jiraEmail", "e"), ("jiraToken", "t")])
      [("r1", ⟨none, none, none, none, none, none, none⟩)] "r1"
      (fun _ => none) (fun _ => none) (fun _ => none) "a" "b"
      (fun _ _ h => nomatch h)).2.2.2 ⟨none, none, none, none, none, none, none⟩
     (by decide) (by decide) (Or.inl (by decide))⟩
